import Mathlib

/-
Verification of the FellagAI generation-request lifecycle.

Shallow embedding of:
  * `GeminiService.checkApiKey` and `GeminiService.generateImage`
    (services/geminiService.ts), with the host-environment credential
    oracle (`window.aistudio` / `hasSelectedApiKey`) modelled as an
    `Option Bool` argument (absent host object / oracle answer), and the
    remote provider modelled as a `ProviderOutcome` argument (a returned
    response or a raised error message);
  * the session controller `handleGenerate`, `handleKeySelection`
    (App.tsx), whose React state cells are gathered into `SessionState`.

JavaScript errors are represented by their message strings; JS truthiness
of optional string fields (absent or empty string is falsy) is modelled
explicitly.
-/

namespace FellagAI

/-- Model tiers (src/types.ts `ModelType`): `FLASH` is the fast tier,
`PRO` the high-fidelity tier. The enum values are the model identifier
strings; only the identity of the tier matters here. -/
inductive ModelType where
  | FLASH
  | PRO
deriving DecidableEq

/-- Aspect ratios (src/types.ts `AspectRatio`). -/
inductive AspectRatio where
  | SQUARE
  | LANDSCAPE
  | PORTRAIT
  | WIDE
  | TALL
deriving DecidableEq

/-- The inline-data block a response part may carry: a declared media type
and a base64 payload, either of which may be absent (and, per JS
truthiness, an empty string behaves like an absent one). -/
structure InlineData where
  mimeType : Option String
  data : Option String
deriving DecidableEq

/-- One content part of a provider response: optional text, optional
inline image data. The code only inspects `inlineData`. -/
structure Part where
  text : Option String
  inlineData : Option InlineData
deriving DecidableEq

/-- `candidate.content`: an optional ordered list of parts. -/
structure Content where
  parts : Option (List Part)
deriving DecidableEq

/-- One response candidate. Its `content` is optional in the SDK: a
candidate may arrive without content (for example when generation was
blocked), in which case the code dereferences `undefined`. -/
structure Candidate where
  content : Option Content
deriving DecidableEq

/-- A provider response: an optional list of candidates. -/
structure Response where
  candidates : Option (List Candidate)
deriving DecidableEq

/-- Outcome of the single `ai.models.generateContent` call: either a
response object or a raised error, represented by its message. -/
inductive ProviderOutcome where
  | ok (resp : Response)
  | err (msg : String)
deriving DecidableEq

/-- JS truthiness of an optional string field: present and non-empty. -/
def strTruthy : Option String → Bool
  | some s => s != ""
  | none => false

/-- `part.inlineData.mimeType || "image/png"`: the declared media type,
falling back to "image/png" when absent or empty. -/
def resolveMime : Option String → String
  | some m => if m == "" then "image/png" else m
  | none => "image/png"

/-- Does `needle` occur at the very start of `haystack`? -/
def startsWithChars : List Char → List Char → Bool
  | [], _ => true
  | _ :: _, [] => false
  | a :: as, b :: bs => a == b && startsWithChars as bs

/-- Does `needle` occur anywhere in `haystack`? -/
def includesChars (needle : List Char) : List Char → Bool
  | [] => needle.isEmpty
  | c :: rest => startsWithChars needle (c :: rest) || includesChars needle rest

/-- JS `h.includes(n)`: substring containment. -/
def strIncludes (h n : String) : Bool :=
  includesChars n.toList h.toList

/-- Strip leading and trailing whitespace from a character list. -/
def trimChars (cs : List Char) : List Char :=
  ((cs.dropWhile Char.isWhitespace).reverse.dropWhile Char.isWhitespace).reverse

/-- JS `s.trim()`: the string with leading and trailing whitespace
removed. -/
def strTrim (s : String) : String :=
  String.mk (trimChars s.toList)

/-- `GeminiService.checkApiKey`: for the high-fidelity tier, when the host
object `window.aistudio` is present (`aistudio = some _`), consult the
oracle and throw "API_KEY_REQUIRED" when it reports no selected key; when
the host object is absent (`aistudio = none`) the check is skipped. -/
def checkApiKey (model : ModelType) (aistudio : Option Bool) : Except String Unit :=
  match model with
  | ModelType.PRO =>
    match aistudio with
    | some hasKey => if hasKey then Except.ok () else Except.error "API_KEY_REQUIRED"
    | none => Except.ok ()
  | ModelType.FLASH => Except.ok ()

/-- The request configuration block built by `generateImage`: the aspect
ratio, plus the "4K" image size for the high-fidelity tier. -/
structure ImageConfig where
  aspectRatio : AspectRatio
  imageSize : Option String
deriving DecidableEq

/-- Configuration construction in `generateImage`. -/
def buildConfig (model : ModelType) (a : AspectRatio) : ImageConfig :=
  { aspectRatio := a
    imageSize := if model = ModelType.PRO then some "4K" else none }

/-- The `for` loop over `response.candidates[0].content.parts`: the first
part whose `inlineData` is present with a truthy `data` field. -/
def findInlinePart : List Part → Option InlineData
  | [] => none
  | p :: rest =>
    match p.inlineData with
    | some d => if strTruthy d.data then some d else findInlinePart rest
    | none => findInlinePart rest

/-- Does a part carry usable inline image data
(`part.inlineData && part.inlineData.data`)? -/
def hasInlineImage (p : Part) : Bool :=
  match p.inlineData with
  | some d => strTruthy d.data
  | none => false

/-- The data URI built from a found inline part. -/
def dataUri (d : InlineData) : String :=
  "data:" ++ resolveMime d.mimeType ++ ";base64," ++ d.data.getD ""

/-- The body of the `try` block after the provider returned a response:
`if (response.candidates && response.candidates[0].content.parts)` scan
the parts, else throw "No image data found in response". Two degenerate
shapes raise a TypeError instead: a present but empty `candidates` array
passes the truthiness test and `response.candidates[0]` is `undefined`
when `.content` is read; and a first candidate without `content` makes
`.parts` a read on `undefined`. -/
def scanResponse (resp : Response) : Except String String :=
  match resp.candidates with
  | none => Except.error "No image data found in response"
  | some [] => Except.error "Cannot read properties of undefined (reading content)"
  | some (c :: _) =>
    match c.content with
    | none => Except.error "Cannot read properties of undefined (reading parts)"
    | some ct =>
      match ct.parts with
      | none => Except.error "No image data found in response"
      | some ps =>
        match findInlinePart ps with
        | some d => Except.ok (dataUri d)
        | none => Except.error "No image data found in response"

/-- The `catch` block of `generateImage`: an error whose message contains
"Requested entity was not found" is re-thrown as "API_KEY_INVALID" for the
high-fidelity tier; every other error is re-thrown unchanged. -/
def reclassify (msg : String) (model : ModelType) : String :=
  if strIncludes msg "Requested entity was not found" && model == ModelType.PRO then
    "API_KEY_INVALID"
  else msg

/-- Result of `generateImage`: the returned data URI or the raised error
message, together with whether the remote provider call was reached. -/
structure GenResult where
  outcome : Except String String
  networkCalled : Bool

/-- `GeminiService.generateImage`. The `checkApiKey` throw happens before
the `try` block, so it is not subject to `reclassify`; both the provider
error and the errors raised inside the `try` block are. The `prompt` and
the configuration built from `model` and `aspectRatio` are forwarded to
the provider, whose behaviour the `provider` argument abstracts. -/
def generateImage (prompt : String) (model : ModelType) (aspectRatio : AspectRatio)
    (aistudio : Option Bool) (provider : ProviderOutcome) : GenResult :=
  match checkApiKey model aistudio with
  | Except.error e => { outcome := Except.error e, networkCalled := false }
  | Except.ok _ =>
    let _request := (prompt, buildConfig model aspectRatio)
    match provider with
    | ProviderOutcome.ok resp =>
      match scanResponse resp with
      | Except.ok uri => { outcome := Except.ok uri, networkCalled := true }
      | Except.error msg =>
        { outcome := Except.error (reclassify msg model), networkCalled := true }
    | ProviderOutcome.err msg =>
      { outcome := Except.error (reclassify msg model), networkCalled := true }

/-- `GeneratedImage` (src/types.ts): the stored successful result. -/
structure GeneratedImage where
  url : String
  prompt : String
  timestamp : Nat
  model : ModelType
deriving DecidableEq

/-- The controller state: the React state cells of `App`. -/
structure SessionState where
  prompt : String
  model : ModelType
  aspectRatio : AspectRatio
  isLoading : Bool
  error : Option String
  currentImage : Option GeneratedImage
  keySelectionNeeded : Bool
deriving DecidableEq

/-- The synchronous head of `handleGenerate` after the emptiness guard:
`setIsLoading(true); setError(null); setKeySelectionNeeded(false)`. -/
def handleGenerateStart (s : SessionState) : SessionState :=
  { s with isLoading := true, error := none, keySelectionNeeded := false }

/-- The continuation of `handleGenerate` once the generation outcome is
known: store the result on success; on the two credential messages raise
the key-selection flag; on any other error store its message (with the
fallback text for a falsy message); `finally setIsLoading(false)`. -/
def handleGenerateFinish (s1 : SessionState) (g : GenResult) (now : Nat) : SessionState :=
  match g.outcome with
  | Except.ok url =>
    { s1 with
        currentImage := some { url := url, prompt := s1.prompt, timestamp := now, model := s1.model }
        isLoading := false }
  | Except.error msg =>
    if msg == "API_KEY_REQUIRED" || msg == "API_KEY_INVALID" then
      { s1 with keySelectionNeeded := true, isLoading := false }
    else
      { s1 with
          error := some (if msg == "" then "An unexpected error occurred while generating the image." else msg)
          isLoading := false }

/-- `handleGenerate`: no-op on an empty trimmed prompt, otherwise the
start transition followed by the delegated generation and the finish
transition. `now` stands for `Date.now()` at the success point. -/
def handleGenerate (s : SessionState) (aistudio : Option Bool)
    (provider : ProviderOutcome) (now : Nat) : SessionState :=
  if strTrim s.prompt == "" then s
  else
    handleGenerateFinish (handleGenerateStart s)
      (generateImage s.prompt s.model s.aspectRatio aistudio provider) now

/-- Outcome of `window.aistudio.openSelectKey()`: normal completion or a
raised error. -/
inductive KeySelOutcome where
  | ok
  | raised
deriving DecidableEq

/-- `handleKeySelection`: when the host object is present, delegate to the
key selector and clear the flag on normal completion, or set the fixed
failure message when it raises; when absent, set the environment message.
No generation call is issued on any path. -/
def handleKeySelection (s : SessionState) (aistudioPresent : Bool)
    (sel : KeySelOutcome) : SessionState :=
  if aistudioPresent then
    match sel with
    | KeySelOutcome.ok => { s with keySelectionNeeded := false }
    | KeySelOutcome.raised =>
      { s with error := some "Failed to select API key. Please try again." }
  else
    { s with error := some "AI Studio environment not detected." }

/-- A controller state holding the scenario prompt "a red cube" with the
fast tier and the square aspect ratio selected, nothing in flight. -/
def sampleState : SessionState :=
  { prompt := "a red cube"
    model := ModelType.FLASH
    aspectRatio := AspectRatio.SQUARE
    isLoading := false
    error := none
    currentImage := none
    keySelectionNeeded := false }

theorem handleGenerateFinish_isLoading (s1 : SessionState) (g : GenResult) (now : Nat) :
    (handleGenerateFinish s1 g now).isLoading = false := by
  unfold handleGenerateFinish
  cases g.outcome with
  | ok url => rfl
  | error msg =>
    dsimp only
    split <;> rfl

theorem handleGenerate_nonempty (s : SessionState) (aistudio : Option Bool)
    (provider : ProviderOutcome) (now : Nat) (h : strTrim s.prompt ≠ "") :
    handleGenerate s aistudio provider now =
      handleGenerateFinish (handleGenerateStart s)
        (generateImage s.prompt s.model s.aspectRatio aistudio provider) now := by
  have hnc : ¬(strTrim s.prompt == "") = true := by simpa using h
  unfold handleGenerate
  rw [if_neg hnc]

theorem handleGenerateFinish_error_key (s1 : SessionState) (g : GenResult) (now : Nat)
    (msg : String) (hout : g.outcome = Except.error msg)
    (hkey : (msg == "API_KEY_REQUIRED" || msg == "API_KEY_INVALID") = true) :
    handleGenerateFinish s1 g now = { s1 with keySelectionNeeded := true, isLoading := false } := by
  unfold handleGenerateFinish
  rw [hout]
  simp [hkey]

theorem handleGenerateFinish_error_other (s1 : SessionState) (g : GenResult) (now : Nat)
    (msg : String) (hout : g.outcome = Except.error msg)
    (hkey : (msg == "API_KEY_REQUIRED" || msg == "API_KEY_INVALID") = false) :
    handleGenerateFinish s1 g now =
      { s1 with
          error := some (if msg == "" then "An unexpected error occurred while generating the image." else msg)
          isLoading := false } := by
  unfold handleGenerateFinish
  rw [hout]
  simp [hkey]

theorem findInlinePart_eq_none (ps : List Part)
    (h : ∀ p ∈ ps, hasInlineImage p = false) : findInlinePart ps = none := by
  induction ps with
  | nil => rfl
  | cons p rest ih =>
    have hp : hasInlineImage p = false := h p (List.mem_cons_self p rest)
    have hrest : ∀ q ∈ rest, hasInlineImage q = false :=
      fun q hq => h q (List.mem_cons_of_mem _ hq)
    unfold findInlinePart
    unfold hasInlineImage at hp
    cases hpd : p.inlineData with
    | none => exact ih hrest
    | some d =>
      rw [hpd] at hp
      dsimp only at hp
      simpa [hp] using ih hrest

theorem findInlinePart_first (pre post : List Part) (tx : Option String) (d : InlineData)
    (hpre : ∀ p ∈ pre, hasInlineImage p = false) (hd : strTruthy d.data = true) :
    findInlinePart (pre ++ { text := tx, inlineData := some d } :: post) = some d := by
  induction pre with
  | nil =>
    unfold findInlinePart
    rw [List.nil_append]
    simp [hd]
  | cons q rest ih =>
    have hq : hasInlineImage q = false := hpre q (List.mem_cons_self q rest)
    have hrest : ∀ p ∈ rest, hasInlineImage p = false :=
      fun p hp => hpre p (List.mem_cons_of_mem _ hp)
    rw [List.cons_append]
    unfold findInlinePart
    unfold hasInlineImage at hq
    cases hqd : q.inlineData with
    | none => exact ih hrest
    | some dq =>
      rw [hqd] at hq
      dsimp only at hq
      simpa [hq] using ih hrest

theorem generateImage_networkCalled (prompt : String) (model : ModelType)
    (a : AspectRatio) (aistudio : Option Bool) (provider : ProviderOutcome)
    (hk : checkApiKey model aistudio = Except.ok ()) :
    (generateImage prompt model a aistudio provider).networkCalled = true := by
  unfold generateImage
  rw [hk]
  cases provider with
  | ok resp => cases hs : scanResponse resp <;> simp [hs]
  | err msg => rfl

/-- C1: for a high-fidelity (PRO) generation request where the credential
oracle reports no selected key, `generateImage` fails with the message
"API_KEY_REQUIRED" and the remote provider is never called — the result
is the same for every possible provider behaviour. -/
theorem c1_pro_missing_key_short_circuits (prompt : String) (a : AspectRatio)
    (provider : ProviderOutcome) :
    generateImage prompt ModelType.PRO a (some false) provider =
      { outcome := Except.error "API_KEY_REQUIRED", networkCalled := false } := rfl

/-- C2: a provider failure whose message contains "Requested entity was
not found" is re-classified as "API_KEY_INVALID" under the PRO tier, and
propagates unchanged under the FLASH tier. -/
theorem c2_entity_not_found_reclassified (prompt : String) (a : AspectRatio)
    (aistudio : Option Bool) (msg : String)
    (hk : checkApiKey ModelType.PRO aistudio = Except.ok ())
    (hm : strIncludes msg "Requested entity was not found" = true) :
    (generateImage prompt ModelType.PRO a aistudio (ProviderOutcome.err msg)).outcome =
        Except.error "API_KEY_INVALID" ∧
      (generateImage prompt ModelType.FLASH a aistudio (ProviderOutcome.err msg)).outcome =
        Except.error msg := by
  constructor
  · unfold generateImage
    rw [hk]
    simp [reclassify, hm]
  · unfold generateImage
    simp [checkApiKey, reclassify, hm]

theorem c2_witness :
    checkApiKey ModelType.PRO (some true) = Except.ok () ∧
      strIncludes "Requested entity was not found" "Requested entity was not found" = true ∧
      ((generateImage "a red cube" ModelType.PRO AspectRatio.SQUARE (some true)
            (ProviderOutcome.err "Requested entity was not found")).outcome =
          Except.error "API_KEY_INVALID" ∧
        (generateImage "a red cube" ModelType.FLASH AspectRatio.SQUARE (some true)
            (ProviderOutcome.err "Requested entity was not found")).outcome =
          Except.error "Requested entity was not found") :=
  ⟨rfl, by decide,
    c2_entity_not_found_reclassified "a red cube" AspectRatio.SQUARE (some true)
      "Requested entity was not found" rfl (by decide)⟩

/-- C3: for a non-empty trimmed prompt, the in-flight flag is true in the
state reached synchronously before the delegated generation call, and
false in the final state, for every generation outcome. -/
theorem c3_inflight_bracketing (s : SessionState) (aistudio : Option Bool)
    (provider : ProviderOutcome) (now : Nat) (h : strTrim s.prompt ≠ "") :
    (handleGenerateStart s).isLoading = true ∧
      (handleGenerate s aistudio provider now).isLoading = false := by
  refine ⟨rfl, ?_⟩
  rw [handleGenerate_nonempty s aistudio provider now h]
  exact handleGenerateFinish_isLoading _ _ _

theorem c3_witness :
    strTrim sampleState.prompt ≠ "" ∧
      ((handleGenerateStart sampleState).isLoading = true ∧
        (handleGenerate sampleState none (ProviderOutcome.err "boom") 0).isLoading = false) :=
  ⟨by decide, c3_inflight_bracketing sampleState none (ProviderOutcome.err "boom") 0 (by decide)⟩

/-- C4 counterexample: two provider responses with no content part
carrying inline image data on which `generateImage` does not fail with
"No image data found in response". With a present but empty `candidates`
list the truthiness test on `response.candidates` passes and
`response.candidates[0].content` dereferences `undefined`; with a first
candidate that has no `content`, `response.candidates[0].content.parts`
dereferences `undefined`. Each raises a TypeError whose message
propagates instead. -/
theorem c4_counterexample :
    ((generateImage "a red cube" ModelType.FLASH AspectRatio.SQUARE none
          (ProviderOutcome.ok { candidates := some [] })).outcome =
        Except.error "Cannot read properties of undefined (reading content)" ∧
      (generateImage "a red cube" ModelType.FLASH AspectRatio.SQUARE none
          (ProviderOutcome.ok { candidates := some [{ content := none }] })).outcome =
        Except.error "Cannot read properties of undefined (reading parts)") ∧
      "Cannot read properties of undefined (reading content)" ≠
        "No image data found in response" ∧
      "Cannot read properties of undefined (reading parts)" ≠
        "No image data found in response" :=
  ⟨⟨rfl, rfl⟩, by decide, by decide⟩

/-- C4 (amended): for every provider response whose `candidates` field is
absent, or has a first candidate carrying a `content` object, in which no
content part carries inline image data, `generateImage` fails with the
message "No image data found in response"; at the controller this failure
sets the error message and leaves the credential-required flag false. -/
theorem c4_no_inline_data_error (aistudio : Option Bool) (resp : Response)
    (s : SessionState) (now : Nat)
    (hk : checkApiKey s.model aistudio = Except.ok ())
    (hcand : resp.candidates = none ∨
      ∃ c rest ct, resp.candidates = some (c :: rest) ∧ c.content = some ct ∧
        (ct.parts = none ∨
          ∃ ps, ct.parts = some ps ∧ ∀ p ∈ ps, hasInlineImage p = false))
    (hp : strTrim s.prompt ≠ "") :
    (generateImage s.prompt s.model s.aspectRatio aistudio (ProviderOutcome.ok resp)).outcome =
        Except.error "No image data found in response" ∧
      (handleGenerate s aistudio (ProviderOutcome.ok resp) now).keySelectionNeeded = false ∧
      (handleGenerate s aistudio (ProviderOutcome.ok resp) now).error =
        some "No image data found in response" := by
  have hscan : scanResponse resp = Except.error "No image data found in response" := by
    rcases hcand with hnone | ⟨c, rest, ct, hc, hct, hparts⟩
    · unfold scanResponse
      rw [hnone]
    · unfold scanResponse
      rw [hc]
      dsimp only
      rw [hct]
      dsimp only
      rcases hparts with hpn | ⟨ps, hps, hnoimg⟩
      · rw [hpn]
      · rw [hps]
        dsimp only
        rw [findInlinePart_eq_none ps hnoimg]
  have hnosub :
      strIncludes "No image data found in response" "Requested entity was not found" = false := by
    decide
  have hout :
      (generateImage s.prompt s.model s.aspectRatio aistudio (ProviderOutcome.ok resp)).outcome =
        Except.error "No image data found in response" := by
    unfold generateImage
    rw [hk]
    simp [hscan, reclassify, hnosub]
  refine ⟨hout, ?_, ?_⟩ <;>
    rw [handleGenerate_nonempty s aistudio (ProviderOutcome.ok resp) now hp,
      handleGenerateFinish_error_other _ _ now "No image data found in response" hout
        (by decide)] <;>
    rfl

theorem c4_witness :
    checkApiKey sampleState.model none = Except.ok () ∧
      strTrim sampleState.prompt ≠ "" ∧
      ((generateImage sampleState.prompt sampleState.model sampleState.aspectRatio none
            (ProviderOutcome.ok
              { candidates := some [{ content := some { parts := some [] } }] })).outcome =
          Except.error "No image data found in response" ∧
        (handleGenerate sampleState none
            (ProviderOutcome.ok { candidates := some [{ content := some { parts := some [] } }] })
            0).keySelectionNeeded = false ∧
        (handleGenerate sampleState none
            (ProviderOutcome.ok { candidates := some [{ content := some { parts := some [] } }] })
            0).error = some "No image data found in response") :=
  ⟨rfl, by decide,
    c4_no_inline_data_error none
      { candidates := some [{ content := some { parts := some [] } }] }
      sampleState 0 rfl
      (Or.inr ⟨{ content := some { parts := some [] } }, [], { parts := some [] }, rfl, rfl,
        Or.inr ⟨[], rfl, by decide⟩⟩)
      (by decide)⟩

/-- A response with one candidate holding the given parts list followed
by further candidates (the code only ever reads the first candidate). -/
def mkPartsResponse (ps : List Part) (restCands : List Candidate) : Response :=
  { candidates := (some ({ content := (some { parts := (some ps) }) } :: restCands)) }

/-- A pure image part with the given declared media type and payload. -/
def imagePart (mt : Option String) (payload : Option String) : Part :=
  { text := none, inlineData := (some { mimeType := mt, data := payload }) }

/-- C5: on a successful provider response, `generateImage` returns the
data URI built from the first content part carrying truthy inline image
data — "data:" ++ media type ++ ";base64," ++ payload — where earlier
parts without usable inline data and all later parts are ignored, and the
media type defaults to "image/png" when the part declares none. -/
theorem c5_first_inline_part_uri (prompt : String) (model : ModelType) (a : AspectRatio)
    (aistudio : Option Bool) (pre post : List Part) (restCands : List Candidate)
    (tx mt : Option String) (payload : String)
    (hk : checkApiKey model aistudio = Except.ok ())
    (hpre : ∀ p ∈ pre, hasInlineImage p = false)
    (hpay : payload ≠ "") :
    (generateImage prompt model a aistudio (ProviderOutcome.ok
        (mkPartsResponse
          (pre ++ { text := tx, inlineData := some { mimeType := mt, data := some payload } }
            :: post)
          restCands))).outcome =
        Except.ok ("data:" ++ resolveMime mt ++ ";base64," ++ payload) ∧
      resolveMime none = "image/png" := by
  refine ⟨?_, rfl⟩
  have hd : strTruthy (some payload : Option String) = true := by
    simp [strTruthy, hpay]
  have hfind := findInlinePart_first pre post tx
    { mimeType := mt, data := some payload } hpre hd
  have hscan : scanResponse
      (mkPartsResponse
        (pre ++ { text := tx, inlineData := some { mimeType := mt, data := some payload } }
          :: post)
        restCands) =
      Except.ok ("data:" ++ resolveMime mt ++ ";base64," ++ payload) := by
    unfold scanResponse mkPartsResponse
    dsimp only
    rw [hfind]
    rfl
  unfold generateImage
  rw [hk]
  simp [hscan]

theorem c5_witness :
    checkApiKey ModelType.FLASH none = Except.ok () ∧
      (∀ p ∈ ([{ text := some "here you go", inlineData := none }] : List Part),
        hasInlineImage p = false) ∧
      ("QUJD" : String) ≠ "" ∧
      ((generateImage "a red cube" ModelType.FLASH AspectRatio.SQUARE none (ProviderOutcome.ok
          (mkPartsResponse
            ([{ text := some "here you go", inlineData := none }] ++
              { text := none, inlineData := some { mimeType := none, data := some "QUJD" } }
                :: [imagePart (some "image/jpeg") (some "WFla")])
            []))).outcome =
          Except.ok ("data:" ++ resolveMime none ++ ";base64," ++ "QUJD") ∧
        resolveMime none = "image/png") :=
  ⟨rfl, by decide, by decide,
    c5_first_inline_part_uri "a red cube" ModelType.FLASH AspectRatio.SQUARE none
      [{ text := some "here you go", inlineData := none }]
      [imagePart (some "image/jpeg") (some "WFla")]
      [] none none "QUJD" rfl (by decide) (by decide)⟩

/-- C6: for a non-empty trimmed prompt, the error message and the
credential-required flag are both cleared (and the in-flight flag set)
synchronously by the start transition, and `handleGenerate` factors as
that start transition followed by the outcome handling — so the clearing
happens before the generation outcome is known. -/
theorem c6_clears_before_outcome (s : SessionState) (aistudio : Option Bool)
    (provider : ProviderOutcome) (now : Nat) (h : strTrim s.prompt ≠ "") :
    (handleGenerateStart s).error = none ∧
      (handleGenerateStart s).keySelectionNeeded = false ∧
      (handleGenerateStart s).isLoading = true ∧
      handleGenerate s aistudio provider now =
        handleGenerateFinish (handleGenerateStart s)
          (generateImage s.prompt s.model s.aspectRatio aistudio provider) now :=
  ⟨rfl, rfl, rfl, handleGenerate_nonempty s aistudio provider now h⟩

theorem c6_witness :
    strTrim sampleState.prompt ≠ "" ∧
      ((handleGenerateStart sampleState).error = none ∧
        (handleGenerateStart sampleState).keySelectionNeeded = false ∧
        (handleGenerateStart sampleState).isLoading = true ∧
        handleGenerate sampleState (some true) (ProviderOutcome.err "oops") 7 =
          handleGenerateFinish (handleGenerateStart sampleState)
            (generateImage sampleState.prompt sampleState.model sampleState.aspectRatio
              (some true) (ProviderOutcome.err "oops")) 7) :=
  ⟨by decide,
    c6_clears_before_outcome sampleState (some true) (ProviderOutcome.err "oops") 7 (by decide)⟩

/-- C7: invoking `handleGenerate` with a prompt whose trimmed text is
empty is a no-op: the state is returned unchanged, whatever the host
environment and the provider would have done. -/
theorem c7_empty_prompt_noop (s : SessionState) (aistudio : Option Bool)
    (provider : ProviderOutcome) (now : Nat) (h : strTrim s.prompt = "") :
    handleGenerate s aistudio provider now = s := by
  have hc : (strTrim s.prompt == "") = true := by simpa using h
  unfold handleGenerate
  rw [if_pos hc]

theorem c7_witness :
    strTrim "   " = "" ∧
      handleGenerate { sampleState with prompt := "   " } (some false)
          (ProviderOutcome.err "never") 3 =
        { sampleState with prompt := "   " } :=
  ⟨by decide,
    c7_empty_prompt_noop { sampleState with prompt := "   " } (some false)
      (ProviderOutcome.err "never") 3 (by decide)⟩

/-- C8: when the key selector completes normally, the credential-required
flag becomes false while the in-flight flag, the current result and the
error are untouched — in particular no generation is issued; when the
selector raises, the credential-required flag is left unchanged and the
error is set to the fixed failure message. -/
theorem c8_key_selection_no_retry (s : SessionState) :
    ((handleKeySelection s true KeySelOutcome.ok).keySelectionNeeded = false ∧
      (handleKeySelection s true KeySelOutcome.ok).isLoading = s.isLoading ∧
      (handleKeySelection s true KeySelOutcome.ok).currentImage = s.currentImage ∧
      (handleKeySelection s true KeySelOutcome.ok).error = s.error) ∧
    ((handleKeySelection s true KeySelOutcome.raised).keySelectionNeeded =
        s.keySelectionNeeded ∧
      (handleKeySelection s true KeySelOutcome.raised).isLoading = s.isLoading ∧
      (handleKeySelection s true KeySelOutcome.raised).currentImage = s.currentImage ∧
      (handleKeySelection s true KeySelOutcome.raised).error =
        some "Failed to select API key. Please try again.") :=
  ⟨⟨rfl, rfl, rfl, rfl⟩, rfl, rfl, rfl, rfl⟩

/-- C9: after a failed attempt the previously displayed result is
untouched, a credential-classified failure raises the key-selection flag
with the error cleared, any other failure records an error message with
the key-selection flag cleared, and the two indicators are never active
together. -/
theorem c9_failure_frame (s : SessionState) (aistudio : Option Bool)
    (provider : ProviderOutcome) (now : Nat) (msg : String)
    (hp : strTrim s.prompt ≠ "")
    (hfail : (generateImage s.prompt s.model s.aspectRatio aistudio provider).outcome =
      Except.error msg) :
    (handleGenerate s aistudio provider now).currentImage = s.currentImage ∧
      ((msg = "API_KEY_REQUIRED" ∨ msg = "API_KEY_INVALID") →
        (handleGenerate s aistudio provider now).keySelectionNeeded = true ∧
          (handleGenerate s aistudio provider now).error = none) ∧
      (msg ≠ "API_KEY_REQUIRED" → msg ≠ "API_KEY_INVALID" →
        (∃ m, (handleGenerate s aistudio provider now).error = some m) ∧
          (handleGenerate s aistudio provider now).keySelectionNeeded = false) ∧
      ¬((handleGenerate s aistudio provider now).error ≠ none ∧
        (handleGenerate s aistudio provider now).keySelectionNeeded = true) := by
  rw [handleGenerate_nonempty s aistudio provider now hp]
  by_cases hkey : (msg == "API_KEY_REQUIRED" || msg == "API_KEY_INVALID") = true
  · rw [handleGenerateFinish_error_key _ _ now msg hfail hkey]
    have hmsg : msg = "API_KEY_REQUIRED" ∨ msg = "API_KEY_INVALID" := by
      simpa using hkey
    refine ⟨rfl, fun _ => ⟨rfl, rfl⟩, fun h1 h2 => ?_, ?_⟩
    · rcases hmsg with hm | hm
      · exact absurd hm h1
      · exact absurd hm h2
    · rintro ⟨herr, -⟩
      exact herr rfl
  · have hkeyf : (msg == "API_KEY_REQUIRED" || msg == "API_KEY_INVALID") = false := by
      simpa using hkey
    rw [handleGenerateFinish_error_other _ _ now msg hfail hkeyf]
    have hmsg : ¬(msg = "API_KEY_REQUIRED" ∨ msg = "API_KEY_INVALID") := by
      simpa using hkey
    refine ⟨rfl, fun h => absurd h hmsg, fun _ _ => ⟨⟨_, rfl⟩, rfl⟩, ?_⟩
    rintro ⟨-, hflag⟩
    exact Bool.false_ne_true hflag

theorem c9_witness :
    strTrim sampleState.prompt ≠ "" ∧
      (generateImage sampleState.prompt sampleState.model sampleState.aspectRatio none
          (ProviderOutcome.err "boom")).outcome = Except.error "boom" ∧
      ((handleGenerate sampleState none (ProviderOutcome.err "boom") 5).currentImage =
          sampleState.currentImage ∧
        (("boom" = "API_KEY_REQUIRED" ∨ "boom" = "API_KEY_INVALID") →
          (handleGenerate sampleState none (ProviderOutcome.err "boom") 5).keySelectionNeeded =
              true ∧
            (handleGenerate sampleState none (ProviderOutcome.err "boom") 5).error = none) ∧
        ("boom" ≠ "API_KEY_REQUIRED" → "boom" ≠ "API_KEY_INVALID" →
          (∃ m, (handleGenerate sampleState none (ProviderOutcome.err "boom") 5).error =
              some m) ∧
            (handleGenerate sampleState none (ProviderOutcome.err "boom") 5).keySelectionNeeded =
              false) ∧
        ¬((handleGenerate sampleState none (ProviderOutcome.err "boom") 5).error ≠ none ∧
          (handleGenerate sampleState none (ProviderOutcome.err "boom") 5).keySelectionNeeded =
            true)) :=
  ⟨by decide, rfl, c9_failure_frame sampleState none (ProviderOutcome.err "boom") 5 "boom"
    (by decide) rfl⟩

/-- C10: for the high-fidelity tier with the host object `window.aistudio`
absent, the credential pre-check passes without consulting any oracle, the
provider call is always reached, and the whole computation coincides with
the one where a key is on file — so no "API_KEY_REQUIRED" failure can
originate from the pre-check. -/
theorem c10_absent_aistudio_skips_precheck (prompt : String) (a : AspectRatio)
    (provider : ProviderOutcome) :
    checkApiKey ModelType.PRO none = Except.ok () ∧
      (generateImage prompt ModelType.PRO a none provider).networkCalled = true ∧
      generateImage prompt ModelType.PRO a none provider =
        generateImage prompt ModelType.PRO a (some true) provider :=
  ⟨rfl, generateImage_networkCalled prompt ModelType.PRO a none provider rfl, rfl⟩

end FellagAI
